import Mathlib

/-!
Verification of the storage availability manager of the express-blog-app
repository (src/index.js): the MongoDB connection state machine with bounded
retries and periodic health checks, and the dual-backend (MongoDB or
in-memory fallback) route handlers for posts and comments.

The embedding is shallow: the mutable globals `isMongoConnected` and
`reconnectAttempts` become a state record, timer scheduling becomes an
explicit result value, and the outcome of each remote (mongoose) call is an
explicit input of type `Except Unit _` (`.error` models a thrown/rejected
promise).
-/

/-- The mutable connection globals of src/index.js lines 141-145:
`isMongoConnected` and `reconnectAttempts`. -/
structure ConnState where
  isMongoConnected : Bool
  reconnectAttempts : Nat
deriving Repr, DecidableEq

/-- `const maxReconnectAttempts = 5` (src/index.js line 144). -/
def maxReconnectAttempts : Nat := 5

/-- `const reconnectInterval = 30000` milliseconds (src/index.js line 145). -/
def reconnectInterval : Nat := 30000

/-- The health-check period, 300000 ms (src/index.js line 276). -/
def healthCheckIntervalMs : Nat := 300000

/-- State at process start: `isMongoConnected = false`, `reconnectAttempts = 0`
(src/index.js lines 141, 143). -/
def initialConnState : ConnState :=
  { isMongoConnected := false, reconnectAttempts := 0 }

/-- Observable outcome of one `connectToMongoDB()` call: success, a retry
scheduled via `setTimeout(connectToMongoDB, reconnectInterval)` carrying the
new attempt number and the delay, or the max-attempts branch that schedules
nothing. -/
inductive ConnectResult where
  | success
  | retryScheduled (attempt : Nat) (delayMs : Nat)
  | exhausted
deriving Repr, DecidableEq

/-- `connectToMongoDB` (src/index.js lines 148-192). `uriConfigured` models
`process.env.MONGODB_URI` being set; when it is not, the function throws
before calling `mongoose.connect`, so the catch block runs exactly as for a
network failure. `connectOk` models `mongoose.connect` resolving. On success
the code sets `isMongoConnected = true` and `reconnectAttempts = 0`; on
failure it sets `isMongoConnected = false`, then increments and schedules a
retry only when `reconnectAttempts < maxReconnectAttempts`. -/
def connectToMongoDB (uriConfigured connectOk : Bool) (s : ConnState) :
    ConnState × ConnectResult :=
  if uriConfigured && connectOk then
    ({ isMongoConnected := true, reconnectAttempts := 0 }, ConnectResult.success)
  else if s.reconnectAttempts < maxReconnectAttempts then
    ({ isMongoConnected := false, reconnectAttempts := s.reconnectAttempts + 1 },
      ConnectResult.retryScheduled (s.reconnectAttempts + 1) reconnectInterval)
  else
    ({ s with isMongoConnected := false }, ConnectResult.exhausted)

/-- The `mongoose.connection.on("disconnected")` handler (src/index.js lines
254-262): sets `isMongoConnected = false` and, when
`reconnectAttempts < maxReconnectAttempts`, schedules one retry after
`reconnectInterval` ms (returned as `some reconnectInterval`); otherwise it
schedules none. -/
def onDisconnected (s : ConnState) : ConnState × Option Nat :=
  if s.reconnectAttempts < maxReconnectAttempts then
    ({ s with isMongoConnected := false }, some reconnectInterval)
  else
    ({ s with isMongoConnected := false }, none)

/-- The `mongoose.connection.on("error")` handler (src/index.js lines
264-267): sets `isMongoConnected = false`, schedules nothing. -/
def onConnectionError (s : ConnState) : ConnState :=
  { s with isMongoConnected := false }

/-- One firing of the periodic health check (src/index.js lines 270-276):
when `!isMongoConnected && mongoose.connection.readyState === 0`, it resets
`reconnectAttempts` to 0 and calls `connectToMongoDB()`; otherwise it does
nothing. `readyStateDisconnected` models `readyState === 0`; the result of
the inner connect call is reported as `some r`. -/
def healthCheck (readyStateDisconnected uriConfigured connectOk : Bool)
    (s : ConnState) : ConnState × Option ConnectResult :=
  if !s.isMongoConnected && readyStateDisconnected then
    ((connectToMongoDB uriConfigured connectOk { s with reconnectAttempts := 0 }).1,
      some (connectToMongoDB uriConfigured connectOk { s with reconnectAttempts := 0 }).2)
  else
    (s, none)

/-- The events that mutate the connection state in src/index.js: a connect
attempt (startup call, scheduled retry, or health-check-initiated), the
disconnect event, the low-level error event, and a health-check tick. -/
inductive MongoEvent where
  | connectAttempt (uriConfigured connectOk : Bool)
  | disconnected
  | connError
  | healthTick (readyStateDisconnected uriConfigured connectOk : Bool)
deriving Repr, DecidableEq

/-- State transition for one event. -/
def stepEvent (s : ConnState) (e : MongoEvent) : ConnState :=
  match e with
  | MongoEvent.connectAttempt u k => (connectToMongoDB u k s).1
  | MongoEvent.disconnected => (onDisconnected s).1
  | MongoEvent.connError => onConnectionError s
  | MongoEvent.healthTick r u k => (healthCheck r u k s).1

/-- Run a sequence of events from a state. -/
def runEvents (es : List MongoEvent) (s : ConnState) : ConnState :=
  es.foldl stepEvent s

/-- State after `n` consecutive connect failures (URI configured, every
`mongoose.connect` rejecting) starting from the initial state. -/
def afterFailures : Nat → ConnState
  | 0 => initialConnState
  | n + 1 => (connectToMongoDB true false (afterFailures n)).1

/-- Result reported by the `(n+1)`-th consecutive connect failure. -/
def failureResult (n : Nat) : ConnectResult :=
  (connectToMongoDB true false (afterFailures n)).2

/-- A post record as stored in the `fallbackPosts` in-memory array.
Fields follow the object literals of src/index.js lines 1011-1022
(disconnected compose branch) and 1034-1045 (error-fallback compose branch);
fields present in only one of the two literals are `Option`s. -/
structure PostRecord where
  _id : String
  title : String
  body : String
  category : String
  excerpt : String
  tags : List String
  featuredImage : Option String
  author : Option String
  authorName : Option String
  readingTime : Option Nat
  createdAt : Nat
  updatedAt : Option Nat
deriving Repr, DecidableEq

/-- Lower-case hex digit for a value below 16. -/
def hexChar (n : Nat) : Char :=
  if n < 10 then Char.ofNat (48 + n) else Char.ofNat (87 + n)

/-- `w` lower-case hex digits of `v` (most significant first). -/
def hexDigits : Nat → Nat → List Char
  | 0, _ => []
  | w + 1, v => hexDigits w (v / 16) ++ [hexChar (v % 16)]

/-- Character list of a version-4 UUID in the canonical 8-4-4-4-12 layout
produced by the `uuid` package's `v4()` (src/index.js line 5, used at lines
1010 and 1029). The random bytes are modelled by a `seed` value; the layout
(36 characters, hyphens, version nibble 4) is what the claims depend on. -/
def uuidv4Chars (seed : Nat) : List Char :=
  hexDigits 8 seed
    ++ '-' :: hexDigits 4 (seed / 16 ^ 8)
    ++ '-' :: '4' :: hexDigits 3 (seed / 16 ^ 12)
    ++ '-' :: hexDigits 4 (seed / 16 ^ 15)
    ++ '-' :: hexDigits 12 (seed / 16 ^ 19)

/-- The locally generated identifier used for fallback records. -/
def uuidv4 (seed : Nat) : String :=
  String.mk (uuidv4Chars seed)

/-- Is `c` a lower-case hexadecimal digit? -/
def isHexChar (c : Char) : Bool :=
  (48 ≤ c.toNat && c.toNat ≤ 57) || (97 ≤ c.toNat && c.toNat ≤ 102)

/-- The remote store's identifier format: a MongoDB ObjectId rendered as 24
hexadecimal characters. -/
def isObjectIdFormat (s : String) : Bool :=
  s.length == 24 && s.data.all isHexChar

/-- One step of the in-place descending-by-createdAt ordering performed by
`fallbackPosts.sort((a, b) => new Date(b.createdAt) - new Date(a.createdAt))`
(src/index.js lines 820, 841). -/
def insertByCreatedAtDesc (p : PostRecord) : List PostRecord → List PostRecord
  | [] => [p]
  | q :: qs =>
    if p.createdAt ≤ q.createdAt then q :: insertByCreatedAtDesc p qs
    else p :: q :: qs

/-- Descending-by-createdAt sort of the fallback container. -/
def sortByCreatedAtDesc : List PostRecord → List PostRecord
  | [] => []
  | p :: ps => insertByCreatedAtDesc p (sortByCreatedAtDesc ps)

/-- HTTP-level outcome of a route handler, abstracting
`res.render`/`res.json` (ok), `res.redirect`, and the `res.status(...)`
responses used in src/index.js. -/
inductive Resp (α : Type) where
  | ok (val : α)
  | redirect (loc : String)
  | badRequest (msg : String)
  | notFound (msg : String)
  | unavailable (msg : String)
  | serverError (msg : String)
deriving Repr, DecidableEq

/-- A response that surfaces a storage failure to the caller: the 503 and
500 responses. -/
def isStorageFailure {α : Type} : Resp α → Bool
  | Resp.unavailable _ => true
  | Resp.serverError _ => true
  | _ => false

/-- The `app.get("/")` handler (src/index.js lines 795-851), restricted to
the posts it renders. `remote` is the outcome of the awaited mongoose
queries of the connected branch (`Post.distinct` / `Post.find`, already
filtered and sorted by the store; `.error` models a rejection, which lands
in the catch block at line 838). The second component records whether the
rendered posts were drawn from the fallback container. In the disconnected
branch the code sorts `fallbackPosts` and then applies the category filter
when one is given and is not "all"; in the catch branch it sorts without
filtering. -/
def homeHandler (connected : Bool) (category : Option String)
    (remote : Except Unit (List PostRecord))
    (fallbackPosts : List PostRecord) : List PostRecord × Bool :=
  if connected then
    match remote with
    | Except.ok ps => (ps, false)
    | Except.error _ => (sortByCreatedAtDesc fallbackPosts, true)
  else
    match category with
    | some c =>
        if c != "all" then
          ((sortByCreatedAtDesc fallbackPosts).filter
            (fun p => p.category == c), true)
        else (sortByCreatedAtDesc fallbackPosts, true)
    | none => (sortByCreatedAtDesc fallbackPosts, true)

/-- The `app.get("/posts/:id")` handler (src/index.js lines 1051-1079).
`remoteFind` is the outcome of `Post.findById`; on a rejection the catch
block at line 1069 falls back to a linear scan of `fallbackPosts`, as does
the disconnected branch. -/
def getPostHandler (connected : Bool) (id : String)
    (remoteFind : Except Unit (Option PostRecord))
    (fallbackPosts : List PostRecord) : Resp PostRecord :=
  if connected then
    match remoteFind with
    | Except.ok (some p) => Resp.ok p
    | Except.ok none => Resp.notFound "Post not found"
    | Except.error _ =>
        match fallbackPosts.find? (fun p => p._id == id) with
        | some p => Resp.ok p
        | none => Resp.notFound "Post not found"
  else
    match fallbackPosts.find? (fun p => p._id == id) with
    | some p => Resp.ok p
    | none => Resp.notFound "Post not found"

/-- The sanitized form inputs of `app.post("/compose")` (src/index.js lines
976-993): the outputs of the `sanitizeInput` (xss) calls, the resolved
`imageSource`, the session user, and the current time. Input sanitization
is an external library per the spec's scope and is treated as already
applied. -/
structure ComposeInput where
  sanitizedTitle : String
  sanitizedBody : String
  sanitizedCategoryRaw : String
  sanitizedExcerpt : String
  sanitizedTags : String
  imageSource : Option String
  sessionUserId : String
  sessionUsername : String
  now : Nat
deriving Repr, DecidableEq

/-- `sanitizeInput(category) || 'Daily Reflections'` (src/index.js line
981): the empty (falsy) string defaults to "Daily Reflections". -/
def sanitizedCategory (inp : ComposeInput) : String :=
  if inp.sanitizedCategoryRaw == "" then "Daily Reflections"
  else inp.sanitizedCategoryRaw

/-- `sanitizedTags ? sanitizedTags.split(',').map(tag => tag.trim()) : []`
(src/index.js lines 1002, 1017, 1040). -/
def parseTags (tags : String) : List String :=
  if tags == "" then [] else (tags.splitOn ",").map String.trim

/-- The record pushed onto `fallbackPosts` by the disconnected branch of
`app.post("/compose")` (src/index.js lines 1010-1023). -/
def fallbackNewPost (seed : Nat) (inp : ComposeInput) : PostRecord :=
  { _id := uuidv4 seed
    title := inp.sanitizedTitle
    body := inp.sanitizedBody
    category := sanitizedCategory inp
    excerpt := inp.sanitizedExcerpt
    tags := parseTags inp.sanitizedTags
    featuredImage := inp.imageSource
    author := some inp.sessionUserId
    authorName := some inp.sessionUsername
    readingTime := none
    createdAt := inp.now
    updatedAt := none }

/-- The record pushed onto `fallbackPosts` by the catch branch of
`app.post("/compose")` (src/index.js lines 1029-1046): auto-excerpt,
reading time, no author fields. -/
def errorFallbackPost (seed : Nat) (inp : ComposeInput) : PostRecord :=
  { _id := uuidv4 seed
    title := inp.sanitizedTitle
    body := inp.sanitizedBody
    category := sanitizedCategory inp
    excerpt := if inp.sanitizedExcerpt == "" then
        inp.sanitizedBody.take 150 ++ "..."
      else inp.sanitizedExcerpt
    tags := parseTags inp.sanitizedTags
    featuredImage := inp.imageSource
    author := none
    authorName := none
    readingTime := some (max 1 (((inp.sanitizedBody.splitOn " ").length + 199) / 200))
    createdAt := inp.now
    updatedAt := some inp.now }

/-- The `app.post("/compose")` handler (src/index.js lines 964-1049).
`validOk` models `validationResult(req).isEmpty()`; `remoteSave` is the
outcome of `newPost.save()` in the connected branch (a rejection lands in
the catch block, which appends to `fallbackPosts`). Returns the response
and the new fallback container. -/
def composeHandler (connected validOk : Bool) (seed : Nat)
    (inp : ComposeInput) (remoteSave : Except Unit Unit)
    (fallbackPosts : List PostRecord) : Resp Unit × List PostRecord :=
  if !validOk then
    (Resp.badRequest "validation failed", fallbackPosts)
  else if connected then
    match remoteSave with
    | Except.ok _ => (Resp.redirect "/", fallbackPosts)
    | Except.error _ =>
        (Resp.redirect "/", fallbackPosts ++ [errorFallbackPost seed inp])
  else
    (Resp.redirect "/", fallbackPosts ++ [fallbackNewPost seed inp])

/-- The fallback-container update shared by the disconnected branch
(src/index.js lines 1160-1170) and the catch branch (lines 1171-1182) of
`app.post("/posts/:id/edit")`: `findIndex` on `_id`, then in-place
assignment of only `title` and `body`. -/
def editFallbackUpdate (id newTitle newBody : String)
    (fallbackPosts : List PostRecord) : Resp Unit × List PostRecord :=
  match List.findIdx? (fun p => p._id == id) fallbackPosts with
  | some i =>
      (Resp.redirect ("/posts/" ++ id),
        List.modify (fun p => { p with title := newTitle, body := newBody })
          i fallbackPosts)
  | none => (Resp.notFound "Post not found", fallbackPosts)

/-- The `app.post("/posts/:id/edit")` handler (src/index.js lines
1131-1183), restricted to title/body (the fallback branches only assign
those two fields). `remoteUpdate` is the outcome of
`Post.findByIdAndUpdate`. -/
def editHandler (connected : Bool) (id newTitle newBody : String)
    (remoteUpdate : Except Unit (Option PostRecord))
    (fallbackPosts : List PostRecord) : Resp Unit × List PostRecord :=
  if connected then
    match remoteUpdate with
    | Except.ok (some p) => (Resp.redirect ("/posts/" ++ p._id), fallbackPosts)
    | Except.ok none => (Resp.notFound "Post not found", fallbackPosts)
    | Except.error _ => editFallbackUpdate id newTitle newBody fallbackPosts
  else editFallbackUpdate id newTitle newBody fallbackPosts

/-- The fallback-container removal shared by the disconnected branch and
the catch branch of `app.post("/posts/:id/delete")` (src/index.js lines
1194-1214): `findIndex` on `_id`, then `splice(postIndex, 1)`. -/
def deleteFallback (id : String) (fallbackPosts : List PostRecord) :
    Resp Unit × List PostRecord :=
  match List.findIdx? (fun p => p._id == id) fallbackPosts with
  | some i => (Resp.redirect "/", fallbackPosts.eraseIdx i)
  | none => (Resp.notFound "Post not found", fallbackPosts)

/-- The `app.post("/posts/:id/delete")` handler (src/index.js lines
1185-1215). `remoteDelete` is the outcome of `Post.findByIdAndDelete`. -/
def deleteHandler (connected : Bool) (id : String)
    (remoteDelete : Except Unit (Option PostRecord))
    (fallbackPosts : List PostRecord) : Resp Unit × List PostRecord :=
  if connected then
    match remoteDelete with
    | Except.ok (some _) => (Resp.redirect "/", fallbackPosts)
    | Except.ok none => (Resp.notFound "Post not found", fallbackPosts)
    | Except.error _ => deleteFallback id fallbackPosts
  else deleteFallback id fallbackPosts

/-- A comment document (src/unnamed/part_002, the Comment mongoose
schema). -/
structure CommentRecord where
  postId : String
  authorUsername : String
  authorUserId : String
  content : String
  createdAt : Nat
deriving Repr, DecidableEq

/-- The `app.get("/posts/:id/comments")` handler (src/index.js lines
623-636): an empty JSON array when disconnected; on a rejected
`Comment.find` while connected, a 500 response — there is no fallback
container for comments. -/
def getCommentsHandler (connected : Bool)
    (remoteComments : Except Unit (List CommentRecord)) :
    Resp (List CommentRecord) :=
  if !connected then Resp.ok []
  else
    match remoteComments with
    | Except.ok cs => Resp.ok cs
    | Except.error _ => Resp.serverError "Error fetching comments"

/-- The `app.post("/posts/:id/comment")` handler (src/index.js lines
573-620): 400 on validation failure, 503 when disconnected, then
`Post.findById` (404 when absent, 500 on rejection) and `newComment.save()`
(500 on rejection, redirect on success). -/
def postCommentHandler (connected validOk : Bool) (postId : String)
    (remoteFindPost : Except Unit Bool)
    (remoteSaveComment : Except Unit Unit) : Resp Unit :=
  if !validOk then
    Resp.badRequest "Comment must be between 1 and 1000 characters"
  else if !connected then
    Resp.unavailable "Comments are temporarily unavailable. Database is offline."
  else
    match remoteFindPost with
    | Except.error _ => Resp.serverError "Error adding comment"
    | Except.ok false => Resp.notFound "Post not found"
    | Except.ok true =>
        match remoteSaveComment with
        | Except.error _ => Resp.serverError "Error adding comment"
        | Except.ok _ => Resp.redirect ("/posts/" ++ postId ++ "#comments")

theorem connectToMongoDB_attempts_le (u k : Bool) (s : ConnState)
    (h : s.reconnectAttempts ≤ maxReconnectAttempts) :
    (connectToMongoDB u k s).1.reconnectAttempts ≤ maxReconnectAttempts := by
  unfold connectToMongoDB
  split_ifs with h1 h2
  · simp
  · simpa using h2
  · simpa using h

theorem stepEvent_attempts_le (s : ConnState) (e : MongoEvent)
    (h : s.reconnectAttempts ≤ maxReconnectAttempts) :
    (stepEvent s e).reconnectAttempts ≤ maxReconnectAttempts := by
  cases e with
  | connectAttempt u k => exact connectToMongoDB_attempts_le u k s h
  | disconnected =>
      show (onDisconnected s).1.reconnectAttempts ≤ maxReconnectAttempts
      unfold onDisconnected
      split_ifs <;> simpa using h
  | connError => exact h
  | healthTick r u k =>
      show (healthCheck r u k s).1.reconnectAttempts ≤ maxReconnectAttempts
      unfold healthCheck
      split_ifs
      · exact connectToMongoDB_attempts_le u k _ (by simp)
      · exact h

theorem runEvents_attempts_le (es : List MongoEvent) (s : ConnState)
    (h : s.reconnectAttempts ≤ maxReconnectAttempts) :
    (runEvents es s).reconnectAttempts ≤ maxReconnectAttempts := by
  induction es generalizing s with
  | nil => exact h
  | cons e es ih => exact ih (stepEvent s e) (stepEvent_attempts_le s e h)

/-- C3: for every sequence of connect-failure, disconnect, error and
health-check events starting from the initial state, `reconnectAttempts`
never exceeds `maxReconnectAttempts` (5): the bound is an invariant of all
reachable states. -/
theorem c3_retryCount_invariant (es : List MongoEvent) :
    (runEvents es initialConnState).reconnectAttempts ≤ maxReconnectAttempts :=
  runEvents_attempts_le es initialConnState (by simp [initialConnState])

/-- C1 counterexample: after exactly 5 consecutive connect failures from the
initial state, the state is Disconnected(5), but the 5th failure DID schedule
a further automatic retry (`retryScheduled 5 30000`, not `exhausted`),
contradicting the claim that no further automatic retry is scheduled at that
point; exhaustion only occurs at the 6th failure. -/
theorem c1_counterexample :
    afterFailures 5 = { isMongoConnected := false, reconnectAttempts := 5 }
    ∧ failureResult 4 = ConnectResult.retryScheduled 5 reconnectInterval
    ∧ failureResult 4 ≠ ConnectResult.exhausted := by
  decide

/-- C1 amended: starting from the initial state Disconnected(0), each of the
first 5 consecutive connect failures schedules a retry, leaving the manager
in Disconnected(5) with one retry still pending; the 6th consecutive failure
finds the budget consumed and schedules no further automatic retry
(exhausted), and a subsequent periodic health check resets
`reconnectAttempts` to 0 and immediately attempts reconnection. -/
theorem c1_amended :
    afterFailures 5 = { isMongoConnected := false, reconnectAttempts := 5 }
    ∧ failureResult 4 = ConnectResult.retryScheduled 5 reconnectInterval
    ∧ afterFailures 6 = { isMongoConnected := false, reconnectAttempts := 5 }
    ∧ failureResult 5 = ConnectResult.exhausted
    ∧ (∀ u k : Bool, healthCheck true u k (afterFailures 6) =
        ((connectToMongoDB u k
            { isMongoConnected := false, reconnectAttempts := 0 }).1,
          some (connectToMongoDB u k
            { isMongoConnected := false, reconnectAttempts := 0 }).2)) := by
  refine ⟨by decide, by decide, by decide, by decide, ?_⟩
  intro u k
  rfl

/-- C4: when the retry budget is consumed (`reconnectAttempts =
maxReconnectAttempts`) and a connect attempt fails, `connectToMongoDB`
returns the exhausted outcome: no retry is scheduled by it, the failure is
absorbed (the function returns a state rather than crashing the process,
mirroring the catch block), a later disconnect event also schedules no
retry, and a subsequent health-check tick still fires: it resets the counter
to 0 and attempts reconnection. -/
theorem c4_connection_exhausted (u k : Bool) (s : ConnState)
    (hmax : s.reconnectAttempts = maxReconnectAttempts)
    (hfail : (u && k) = false) :
    (connectToMongoDB u k s).2 = ConnectResult.exhausted
    ∧ (connectToMongoDB u k s).1 = { s with isMongoConnected := false }
    ∧ (onDisconnected (connectToMongoDB u k s).1).2 = none
    ∧ (∀ u' k' : Bool, healthCheck true u' k' (connectToMongoDB u k s).1 =
        ((connectToMongoDB u' k'
            { isMongoConnected := false, reconnectAttempts := 0 }).1,
          some (connectToMongoDB u' k'
            { isMongoConnected := false, reconnectAttempts := 0 }).2)) := by
  have hconn : connectToMongoDB u k s = ({ s with isMongoConnected := false },
      ConnectResult.exhausted) := by
    unfold connectToMongoDB
    rw [hfail]
    simp [hmax]
  have hstate : ({ s with isMongoConnected := false } : ConnState) =
      { isMongoConnected := false, reconnectAttempts := maxReconnectAttempts } := by
    cases s
    simp_all
  refine ⟨by rw [hconn], by rw [hconn],
    by rw [hconn, hstate]; simp [onDisconnected], ?_⟩
  intro u' k'
  rw [hconn, hstate]
  rfl

/-- C4 witness: the exhausted branch at the concrete state Disconnected(5)
with a failing connect attempt. -/
theorem c4_connection_exhausted_witness :
    (connectToMongoDB false false
      { isMongoConnected := false, reconnectAttempts := 5 }).2 =
      ConnectResult.exhausted :=
  (c4_connection_exhausted false false
    { isMongoConnected := false, reconnectAttempts := 5 }
    (by decide) (by decide)).1

/-- C6: whenever a `connectToMongoDB` call succeeds, the resulting state has
`isMongoConnected = true` and `reconnectAttempts = 0`, whatever the counter
held before the attempt. -/
theorem c6_success_resets (u k : Bool) (s : ConnState)
    (h : (connectToMongoDB u k s).2 = ConnectResult.success) :
    (connectToMongoDB u k s).1.isMongoConnected = true
    ∧ (connectToMongoDB u k s).1.reconnectAttempts = 0 := by
  unfold connectToMongoDB at h ⊢
  cases hok : (u && k) with
  | false =>
      rw [hok] at h
      simp only [Bool.false_eq_true, if_false] at h
      split at h <;> simp_all
  | true =>
      simp [hok]

/-- C6 witness: a successful connect from Disconnected(3) ends at
Connected with counter 0. -/
theorem c6_success_resets_witness :
    (connectToMongoDB true true
      { isMongoConnected := false, reconnectAttempts := 3 }).1.isMongoConnected
        = true
    ∧ (connectToMongoDB true true
      { isMongoConnected := false, reconnectAttempts := 3 }).1.reconnectAttempts
        = 0 :=
  c6_success_resets true true
    { isMongoConnected := false, reconnectAttempts := 3 } (by decide)

/-- C7: with no MONGODB_URI configured, every `connectToMongoDB` call fails
(never returns success), and the very first such failure from the initial
state leaves the manager in Disconnected(1) with one retry scheduled after
`reconnectInterval` = 30000 ms. -/
theorem c7_missing_uri (k : Bool) (s : ConnState) :
    (connectToMongoDB false k s).2 ≠ ConnectResult.success
    ∧ connectToMongoDB false k initialConnState =
        ({ isMongoConnected := false, reconnectAttempts := 1 },
          ConnectResult.retryScheduled 1 reconnectInterval) := by
  constructor
  · unfold connectToMongoDB
    simp only [Bool.false_and, if_neg Bool.false_ne_true]
    split <;> simp
  · cases k <;> rfl

/-- C9: the disconnect handler sets `isMongoConnected = false`, leaves
`reconnectAttempts` unchanged, and schedules exactly one retry after the
fixed 30-second delay precisely when `reconnectAttempts <
maxReconnectAttempts`; when the budget is exhausted it schedules none. -/
theorem c9_disconnect_handler (s : ConnState) :
    (onDisconnected s).1.isMongoConnected = false
    ∧ (onDisconnected s).1.reconnectAttempts = s.reconnectAttempts
    ∧ (onDisconnected s).2 =
        (if s.reconnectAttempts < maxReconnectAttempts then
          some reconnectInterval else none) := by
  unfold onDisconnected
  split_ifs with hlt <;> simp [hlt]

theorem insertByCreatedAtDesc_perm (p : PostRecord) (l : List PostRecord) :
    (insertByCreatedAtDesc p l).Perm (p :: l) := by
  induction l with
  | nil => exact List.Perm.refl _
  | cons q qs ih =>
      unfold insertByCreatedAtDesc
      split_ifs
      · exact (ih.cons q).trans (List.Perm.swap p q qs)
      · exact List.Perm.refl _

theorem sortByCreatedAtDesc_perm (l : List PostRecord) :
    (sortByCreatedAtDesc l).Perm l := by
  induction l with
  | nil => exact List.Perm.refl _
  | cons p ps ih =>
      exact (insertByCreatedAtDesc_perm p _).trans (ih.cons p)

theorem hexDigits_length (w v : Nat) : (hexDigits w v).length = w := by
  induction w generalizing v with
  | zero => rfl
  | succ w ih => simp [hexDigits, ih]

theorem uuidv4_length (seed : Nat) : (uuidv4 seed).length = 36 := by
  simp [uuidv4, uuidv4Chars, String.length, hexDigits_length]

theorem uuidv4_not_objectIdFormat (seed : Nat) :
    isObjectIdFormat (uuidv4 seed) = false := by
  have h := uuidv4_length seed
  simp [isObjectIdFormat, h]

/-- C8: whenever `isMongoConnected` is true and the remote-store operation
succeeds, reads are drawn entirely from the remote store: the home route
returns exactly the remote result with the fallback flag false, independent
of the fallback container, and the single-post route returns the remote
document (or 404 when the remote store has none) with the same result for
every fallback container. -/
theorem c8_connected_reads_never_fallback (cat : Option String)
    (ps : List PostRecord) (fb fb' : List PostRecord) (id : String)
    (r : Option PostRecord) :
    homeHandler true cat (Except.ok ps) fb = (ps, false)
    ∧ homeHandler true cat (Except.ok ps) fb = homeHandler true cat (Except.ok ps) fb'
    ∧ getPostHandler true id (Except.ok r) fb =
        (match r with
          | some p => Resp.ok p
          | none => Resp.notFound "Post not found")
    ∧ getPostHandler true id (Except.ok r) fb =
        getPostHandler true id (Except.ok r) fb' := by
  refine ⟨rfl, rfl, ?_, ?_⟩ <;> cases r <;> rfl

/-- C2 counterexample: storage failures ARE propagated to the caller by the
comment operations. While connected, a throwing `Comment.find` in the
comment-list read is answered with a 500 error instead of a fallback
result, and while disconnected a comment write is answered with a 503
error; neither consults any in-memory container. -/
theorem c2_counterexample :
    getCommentsHandler true (Except.error ()) =
      Resp.serverError "Error fetching comments"
    ∧ isStorageFailure (getCommentsHandler true (Except.error ())) = true
    ∧ postCommentHandler false true "p1" (Except.ok true) (Except.ok ()) =
        Resp.unavailable "Comments are temporarily unavailable. Database is offline."
    ∧ isStorageFailure
        (postCommentHandler false true "p1" (Except.ok true) (Except.ok ())) = true :=
  ⟨rfl, rfl, rfl, rfl⟩

/-- C2 amended: the no-storage-failure guarantee holds for the POST
operations on posts (read one, create, update, remove): every such call
completes without a 5xx/503 response, falling back to the in-memory
container when the remote branch throws, and the single-post read yields
either a record from one of the two backends or a genuine not-found; for
the disconnected read, not-found is reported exactly when the fallback
container has no record with the requested id. The comment operations are
excluded: comment listing returns a 500 when `Comment.find` throws while
connected (and an empty list when disconnected), and comment creation
returns a 503 when disconnected and a 500 when a remote call throws. -/
theorem c2_amended :
    (∀ (c : Bool) (id : String) rem fb,
      isStorageFailure (getPostHandler c id rem fb) = false)
    ∧ (∀ (c v : Bool) (seed : Nat) inp rs fb,
      isStorageFailure (composeHandler c v seed inp rs fb).1 = false)
    ∧ (∀ (c : Bool) (id t b : String) rem fb,
      isStorageFailure (editHandler c id t b rem fb).1 = false)
    ∧ (∀ (c : Bool) (id : String) rem fb,
      isStorageFailure (deleteHandler c id rem fb).1 = false)
    ∧ (∀ (c : Bool) (id : String) rem fb,
      (∃ p, getPostHandler c id rem fb = Resp.ok p)
      ∨ getPostHandler c id rem fb = Resp.notFound "Post not found")
    ∧ (∀ (id : String) rem fb,
      (getPostHandler false id rem fb = Resp.notFound "Post not found"
        ↔ fb.find? (fun p => p._id == id) = none))
    ∧ getCommentsHandler true (Except.error ()) =
        Resp.serverError "Error fetching comments"
    ∧ (∀ rem, getCommentsHandler false rem = Resp.ok [])
    ∧ (∀ (pid : String) rf rs, postCommentHandler false true pid rf rs =
        Resp.unavailable "Comments are temporarily unavailable. Database is offline.")
    ∧ (∀ (pid : String), postCommentHandler true true pid (Except.ok true)
        (Except.error ()) = Resp.serverError "Error adding comment")
    ∧ (∀ (pid : String) rs, postCommentHandler true true pid (Except.error ()) rs =
        Resp.serverError "Error adding comment") := by
  refine ⟨?_, ?_, ?_, ?_, ?_, ?_, rfl, ?_, ?_, ?_, ?_⟩
  · intro c id rem fb
    unfold getPostHandler
    cases c <;> rcases rem with _ | r
    · cases hf : fb.find? (fun p => p._id == id) <;> simp [hf, isStorageFailure]
    · cases hf : fb.find? (fun p => p._id == id) <;> simp [hf, isStorageFailure]
    · cases hf : fb.find? (fun p => p._id == id) <;> simp [hf, isStorageFailure]
    · rcases r with _ | p <;> simp [isStorageFailure]
  · intro c v seed inp rs fb
    unfold composeHandler
    cases v <;> cases c <;> rcases rs with _ | _ <;> simp [isStorageFailure]
  · intro c id t b rem fb
    unfold editHandler editFallbackUpdate
    cases c <;> rcases rem with _ | r
    · cases hf : List.findIdx? (fun p => p._id == id) fb <;>
        simp [hf, isStorageFailure]
    · cases hf : List.findIdx? (fun p => p._id == id) fb <;>
        simp [hf, isStorageFailure]
    · cases hf : List.findIdx? (fun p => p._id == id) fb <;>
        simp [hf, isStorageFailure]
    · rcases r with _ | p <;> simp [isStorageFailure]
  · intro c id rem fb
    unfold deleteHandler deleteFallback
    cases c <;> rcases rem with _ | r
    · cases hf : List.findIdx? (fun p => p._id == id) fb <;>
        simp [hf, isStorageFailure]
    · cases hf : List.findIdx? (fun p => p._id == id) fb <;>
        simp [hf, isStorageFailure]
    · cases hf : List.findIdx? (fun p => p._id == id) fb <;>
        simp [hf, isStorageFailure]
    · rcases r with _ | p <;> simp [isStorageFailure]
  · intro c id rem fb
    unfold getPostHandler
    cases c <;> rcases rem with _ | r
    · cases hf : fb.find? (fun p => p._id == id) <;> simp [hf]
    · cases hf : fb.find? (fun p => p._id == id) <;> simp [hf]
    · cases hf : fb.find? (fun p => p._id == id) <;> simp [hf]
    · rcases r with _ | p <;> simp
  · intro id rem fb
    unfold getPostHandler
    cases hf : fb.find? (fun p => p._id == id) <;> simp [hf]
  · intro rem
    rfl
  · intro pid rf rs
    rfl
  · intro pid
    rfl
  · intro pid rs
    rfl

/-- C5: a record written through the compose route while disconnected is
observed by a subsequent home-route read while still disconnected: it
occurs exactly once (its locally generated id being new to the container),
no previously stored record is lost, its identifier is the locally
generated uuid, and that identifier does not have the remote store's
24-hex-character ObjectId format (it has 36 characters). -/
theorem c5_disconnected_write_then_read (seed : Nat) (inp : ComposeInput)
    (fb : List PostRecord) (rem : Except Unit (List PostRecord))
    (hfresh : ∀ p ∈ fb, p._id ≠ uuidv4 seed) :
    List.countP (fun p => p._id == uuidv4 seed)
      (homeHandler false none rem
        ((composeHandler false true seed inp (Except.ok ()) fb).2)).1 = 1
    ∧ fallbackNewPost seed inp ∈
        (homeHandler false none rem
          ((composeHandler false true seed inp (Except.ok ()) fb).2)).1
    ∧ (∀ q ∈ fb, q ∈ (homeHandler false none rem
        ((composeHandler false true seed inp (Except.ok ()) fb).2)).1)
    ∧ (fallbackNewPost seed inp)._id = uuidv4 seed
    ∧ isObjectIdFormat (uuidv4 seed) = false
    ∧ (uuidv4 seed).length = 36 := by
  have hcompose : (composeHandler false true seed inp (Except.ok ()) fb).2 =
      fb ++ [fallbackNewPost seed inp] := rfl
  rw [hcompose]
  have hview : (homeHandler false none rem (fb ++ [fallbackNewPost seed inp])).1 =
      sortByCreatedAtDesc (fb ++ [fallbackNewPost seed inp]) := rfl
  rw [hview]
  have hperm := sortByCreatedAtDesc_perm (fb ++ [fallbackNewPost seed inp])
  refine ⟨?_, ?_, ?_, rfl, uuidv4_not_objectIdFormat seed, uuidv4_length seed⟩
  · rw [List.Perm.countP_eq _ hperm, List.countP_append]
    have h0 : List.countP (fun p => p._id == uuidv4 seed) fb = 0 := by
      rw [List.countP_eq_zero]
      intro a ha
      simpa using hfresh a ha
    have h1 : List.countP (fun p => p._id == uuidv4 seed)
        [fallbackNewPost seed inp] = 1 := by
      simp [fallbackNewPost]
    rw [h0, h1]
  · exact hperm.mem_iff.mpr (List.mem_append_right _ (List.mem_singleton_self _))
  · intro q hq
    exact hperm.mem_iff.mpr (List.mem_append_left _ hq)

/-- C5 witness: writing while disconnected over a container that already
holds one record with a different id, the subsequent disconnected read
counts the new record exactly once. -/
theorem c5_disconnected_write_then_read_witness :
    List.countP (fun p => p._id == uuidv4 0)
      (homeHandler false none (Except.ok [])
        ((composeHandler false true 0
          { sanitizedTitle := "t", sanitizedBody := "b",
            sanitizedCategoryRaw := "", sanitizedExcerpt := "",
            sanitizedTags := "", imageSource := none,
            sessionUserId := "u1", sessionUsername := "alice", now := 7 }
          (Except.ok ())
          [{ _id := "abc", title := "t0", body := "b0", category := "c0",
             excerpt := "", tags := [], featuredImage := none,
             author := none, authorName := none, readingTime := none,
             createdAt := 3, updatedAt := none }]).2)).1 = 1 :=
  (c5_disconnected_write_then_read 0 _ _ _ (by decide)).1

/-- C10: the fallback-container update of the edit route (identical in the
disconnected branch and the error-fallback branch) modifies only the
matched record's `title` and `body`: the container keeps its length, every
record at a different index is unchanged, and the matched record keeps its
`_id`, `category`, `tags`, `excerpt`, `featuredImage`, `author` and
`createdAt` fields; both branches produce the same container. -/
theorem c10_fallback_edit_frame (id t b : String) (fb : List PostRecord)
    (i : Nat) (rem : Except Unit (Option PostRecord))
    (hidx : List.findIdx? (fun p => p._id == id) fb = some i) :
    ((editHandler false id t b rem fb).2.length = fb.length
    ∧ (∀ j, j ≠ i → (editHandler false id t b rem fb).2[j]? = fb[j]?)
    ∧ (∀ p, fb[i]? = some p →
        (editHandler false id t b rem fb).2[i]? =
          some { p with title := t, body := b })
    ∧ (∀ p q, fb[i]? = some p →
        (editHandler false id t b rem fb).2[i]? = some q →
        q.title = t ∧ q.body = b ∧ q._id = p._id ∧ q.category = p.category
        ∧ q.tags = p.tags ∧ q.excerpt = p.excerpt
        ∧ q.featuredImage = p.featuredImage ∧ q.author = p.author
        ∧ q.createdAt = p.createdAt))
    ∧ (editHandler false id t b rem fb).2 =
        (editHandler true id t b (Except.error ()) fb).2 := by
  have hfb : (editHandler false id t b rem fb).2 =
      List.modify (fun p => { p with title := t, body := b }) i fb := by
    show (editFallbackUpdate id t b fb).2 = _
    unfold editFallbackUpdate
    rw [hidx]
  have hfb2 : (editHandler true id t b (Except.error ()) fb).2 =
      List.modify (fun p => { p with title := t, body := b }) i fb := by
    show (editFallbackUpdate id t b fb).2 = _
    unfold editFallbackUpdate
    rw [hidx]
  rw [hfb, hfb2]
  refine ⟨⟨List.length_modify _ _ _, ?_, ?_, ?_⟩, rfl⟩
  · intro j hij
    rw [List.getElem?_modify]
    rcases hj : fb[j]? with _ | p
    · rfl
    · simp [Ne.symm hij]
  · intro p hp
    rw [List.getElem?_modify, hp]
    simp
  · intro p q hp hq
    have hmod : (List.modify (fun a => { a with title := t, body := b })
        i fb)[i]? = some { p with title := t, body := b } := by
      rw [List.getElem?_modify, hp]
      simp
    rw [hmod] at hq
    injection hq with h
    subst h
    exact ⟨rfl, rfl, rfl, rfl, rfl, rfl, rfl, rfl, rfl⟩

/-- C10 witness: editing the single matched record of a one-element
container keeps the container length. -/
theorem c10_fallback_edit_frame_witness :
    (editHandler false "abc" "t2" "b2" (Except.ok none)
      [{ _id := "abc", title := "t0", body := "b0", category := "c0",
         excerpt := "e0", tags := ["x"], featuredImage := none,
         author := none, authorName := none, readingTime := none,
         createdAt := 3, updatedAt := none }]).2.length = 1 :=
  (c10_fallback_edit_frame "abc" "t2" "b2" _ 0 (Except.ok none)
    (by decide)).1.1
